import Mathlib

/-!
Verification of `gcloud/utils/cmdb.py` against its specification.

The Python module is embedded shallowly:

* `batch_request` (lines 29-79) becomes a pure Lean function.  The remote
  call adapter `func`, the caller params and the extractor callbacks are
  parameters; a Python value that may raise is an `Except PyErr`.
* The response object is an abstract type `R` together with the observation
  functions the source actually uses on it: `truthy r` is Python truthiness
  of the object returned by a page fetch (line 69 `if not result:`),
  `resultFlag r` is `result["result"]` (line 44), `get_data` / `get_count`
  are the caller-supplied extractors.
* The caller-supplied fixed params are split into the optional `"page"` key
  (`pageKey`) and the remaining keys (`params : ρ`), because `batch_request`
  treats the `"page"` key specially: the probe call
  `func(page={"start": 0, "limit": 1}, **params)` (line 42) raises
  `TypeError` when `params` itself contains `"page"` (duplicate keyword
  argument), and `request_params.update(params)` (line 58) lets a `"page"`
  entry of `params` overwrite the planned window.
* The thread pool of `gcloud/utils/thread.py` is not part of the sources;
  its behaviour is modelled from the spec (one execution of the adapter per
  submitted window, the aggregator blocks until every task resolved, a
  resolved future yields the value or re-raises).  Completion order is made
  explicit as a schedule: `runSched` resolves the futures in an arbitrary
  order given by the schedule, `batch_request` uses the canonical schedule.
* Logging is a side effect without influence on the returned value and is
  not modelled.
-/

/-- A CMDB page window: the dict `{"start": ..., "limit": ...}`. -/
structure Page where
  start : Nat
  limit : Nat
deriving DecidableEq, Repr

/-- A Python exception escaping a call. -/
inductive PyErr where
  | typeErrorDuplicatePageKwarg
  | raised (msg : String)
deriving DecidableEq, Repr

/-- Page plan of `batch_request` (lines 50-63): the `while start < count`
loop submitting `{"limit": limit, "start": start}` and doing
`start += limit`.  The loop is embedded with fuel; `count` iterations are
enough whenever `limit > 0` (for `limit = 0` the Python loop diverges). -/
def planPagesAux (limit count start : Nat) : Nat → List Page
  | 0 => []
  | fuel + 1 =>
    if start < count then
      Page.mk start limit :: planPagesAux limit count (start + limit) fuel
    else []

/-- The full page plan, starting from `start = 0` (line 49). -/
def planPages (count limit : Nat) : List Page :=
  planPagesAux limit count 0 count

/-- Number of planned windows for `limit > 0`: `⌈count / limit⌉`. -/
def numPages (count limit : Nat) : Nat :=
  (count + limit - 1) / limit

/-- Effective window of one page-fetch request (lines 55-58):
`request_params = {"page": planned}` followed by
`request_params.update(params)`, so a `"page"` key of the caller params
overwrites the planned window. -/
def effectivePage (pageKey : Option Page) (planned : Page) : Page :=
  pageKey.getD planned

/-- The probe call (line 42): `func(page={"start": 0, "limit": 1}, **params)`.
When the caller params already contain a `"page"` key, Python raises
`TypeError: got multiple values for keyword argument page` before `func`
runs. -/
def probeCall {ρ R : Type} (func : Page → ρ → Except PyErr R)
    (pageKey : Option Page) (params : ρ) : Except PyErr R :=
  match pageKey with
  | some _ => Except.error PyErr.typeErrorDuplicatePageKwarg
  | none => func (Page.mk 0 1) params

/-- One scheduler step: the task at index `i` runs and its future resolves
to the value of the already-determined computation `results[i]`. -/
def stepResolve {τ : Type} (results : List τ) (fut : List (Option τ)) (i : Nat) :
    List (Option τ) :=
  match results[i]? with
  | some r => fut.set i (some r)
  | none => fut

/-- Modelled from the spec: the worker pool of `gcloud/utils/thread.py`
(not among the sources) runs every submitted task exactly once before
`pool.join()` returns.  The schedule lists the indices of the tasks in the
order in which they complete; resolving a future stores its task's value. -/
def runSched {τ : Type} (results : List τ) (sched : List Nat) : List (Option τ) :=
  sched.foldl (stepResolve results) (List.replicate results.length none)

/-- Modelled from the spec: `future.get()` returns the task's value or
re-raises the exception the task raised; the aggregator only reads futures
after the pool drained, so an unresolved future is never read. -/
def futGet {R : Type} : Option (Except PyErr R) → Except PyErr R
  | some r => r
  | none => Except.error (PyErr.raised "unresolved future")

/-- The merge loop of `batch_request` (lines 66-79): iterate the futures in
submission order; `result = future.get()` re-raises a worker exception;
`if not result:` (line 69) tests Python truthiness of the whole response
object and returns `[]`; otherwise `data.extend(get_data(result))`. -/
def mergeTasks {R α : Type} (truthy : R → Bool)
    (get_data : R → Except PyErr (List α)) :
    List α → List (Option (Except PyErr R)) → Except PyErr (List α)
  | acc, [] => Except.ok acc
  | acc, t :: rest =>
    match futGet t with
    | Except.error e => Except.error e
    | Except.ok r =>
      if truthy r then
        match get_data r with
        | Except.error e => Except.error e
        | Except.ok d => mergeTasks truthy get_data (acc ++ d) rest
      else Except.ok []

/-- The body of `batch_request` (lines 29-79), parameterized by the
completion schedule of the pool: probe call, `if not result["result"]`
check (line 44, returning `[]`), `count = get_count(result)`, page plan,
one adapter task per window with its effective page, pool drain, merge. -/
def batch_request_sched {ρ R α : Type} (sched : Nat → List Nat)
    (func : Page → ρ → Except PyErr R)
    (truthy : R → Bool) (resultFlag : R → Except PyErr Bool)
    (pageKey : Option Page) (params : ρ)
    (get_data : R → Except PyErr (List α)) (get_count : R → Except PyErr Nat)
    (limit : Nat) : Except PyErr (List α) :=
  match probeCall func pageKey params with
  | Except.error e => Except.error e
  | Except.ok result =>
    match resultFlag result with
    | Except.error e => Except.error e
    | Except.ok flag =>
      if flag then
        match get_count result with
        | Except.error e => Except.error e
        | Except.ok count =>
          mergeTasks truthy get_data []
            (runSched
              (((planPages count limit).map (effectivePage pageKey)).map
                (fun p => func p params))
              (sched (((planPages count limit).map (effectivePage pageKey)).map
                (fun p => func p params)).length))
      else Except.ok []

/-- The exported `batch_request`: the canonical completion schedule. -/
def batch_request {ρ R α : Type} (func : Page → ρ → Except PyErr R)
    (truthy : R → Bool) (resultFlag : R → Except PyErr Bool)
    (pageKey : Option Page) (params : ρ)
    (get_data : R → Except PyErr (List α)) (get_count : R → Except PyErr Nat)
    (limit : Nat) : Except PyErr (List α) :=
  batch_request_sched (fun n => List.range n) func truthy resultFlag pageKey
    params get_data get_count limit

/-- The pages with which the adapter `func` is invoked during one
`batch_request` call, in submission order: a duplicate `"page"` keyword
aborts before any call; otherwise the probe page `{0, 1}` is requested, and
when the probe returns successfully with flag `True` and a count, one task
per planned window is submitted to the pool (and each submitted task runs,
failure of an earlier one notwithstanding). -/
def batch_request_calls {ρ R : Type} (func : Page → ρ → Except PyErr R)
    (resultFlag : R → Except PyErr Bool)
    (pageKey : Option Page) (params : ρ)
    (get_count : R → Except PyErr Nat) (limit : Nat) : List Page :=
  match pageKey with
  | some _ => []
  | none =>
    Page.mk 0 1 ::
      match func (Page.mk 0 1) params with
      | Except.error _ => []
      | Except.ok result =>
        match resultFlag result with
        | Except.error _ => []
        | Except.ok flag =>
          if flag then
            match get_count result with
            | Except.error _ => []
            | Except.ok count => (planPages count limit).map (effectivePage pageKey)
          else []

/-- Python `s.split(sep)` for a one-character separator, splitting the
character data; `"".split(",") == [""]`. -/
def splitCharAux (sep : Char) : List Char → List Char → List String
  | [], acc => [String.mk acc.reverse]
  | c :: cs, acc =>
    if c = sep then String.mk acc.reverse :: splitCharAux sep cs []
    else splitCharAux sep cs (c :: acc)

/-- Python `s.split(sep)` (single-character separator). -/
def pySplit (s : String) (sep : Char) : List String :=
  splitCharAux sep s.data []

/-- Python `s.strip()`: drop leading and trailing whitespace. -/
def pyStrip (s : String) : String :=
  String.mk ((s.data.dropWhile Char.isWhitespace).reverse.dropWhile
    Char.isWhitespace).reverse

/-- Python string comparison: lexicographic on code points. -/
def lexLe : List Char → List Char → Bool
  | [], _ => true
  | _ :: _, [] => false
  | a :: as, b :: bs =>
    if a.toNat < b.toNat then true
    else if b.toNat < a.toNat then false
    else lexLe as bs

/-- Python `a <= b` on strings. -/
def pyLe (a b : String) : Bool :=
  lexLe a.data b.data

/-- Python string order as a relation, for sortedness statements. -/
def pyLeR (a b : String) : Prop :=
  pyLe a b = true

instance : DecidableRel pyLeR :=
  fun a b => inferInstanceAs (Decidable (pyLe a b = true))

/-- Python `sorted(set(l))` for strings: the distinct elements of `l` in
ascending order.  Python sorts with a stable mergesort; on a duplicate-free
list every comparison sort yields the same result, so an insertion sort is
a faithful model. -/
def pySortedSet (l : List String) : List String :=
  List.insertionSort pyLeR l.dedup

/-- Response of `client.cc.search_business` as `get_notify_receivers` reads
it: the `result` flag, `data.count` and `data.info`, one business being a
lookup from role field name to the comma-separated member string. -/
structure SearchBizResp where
  result : Bool
  count : Nat
  info : List (String → String)

/-- Return dict of `get_notify_receivers`. -/
structure NotifyResult where
  result : Bool
  message : String
  data : Option String
deriving Repr

/-- The `receiver_group` argument: Python passes either a string or a list
of group names (lines 238-239 split a string on commas). -/
inductive ReceiverGroup where
  | ofString (s : String)
  | ofList (l : List String)

/-- Python truthiness test `if not receiver_group:` (line 197). -/
def ReceiverGroup.isFalsy : ReceiverGroup → Bool
  | ReceiverGroup.ofString s => s.data.isEmpty
  | ReceiverGroup.ofList l => l.isEmpty

/-- The group list iterated at line 241 (a string argument was split on
commas at line 239). -/
def ReceiverGroup.toGroupList : ReceiverGroup → List String
  | ReceiverGroup.ofString s => pySplit s ','
  | ReceiverGroup.ofList l => l

/-- Modelled from the spec: `handle_api_error` (in `gcloud/utils/handlers`,
not among the sources) only renders an identifying error message; the
message content is irrelevant to every claim and is modelled as a fixed
string. -/
def apiErrorMessage : String :=
  "CMDB cc.search_business api error"

/-- Message of the not-exactly-one-business branch (lines 227-231). -/
def bizNotUniqueMessage : String :=
  "CMDB business not unique"

/-- Model of `get_notify_receivers` (lines 184-251).  `search_business` stands for
`client.cc.search_business` applied to the kwargs built at lines 207-212
(supplier account and the parsed business id); `roleMap` is the static
`CC_V2_ROLE_MAP` table from `gcloud/core/roles`.  `info[0]` on an empty
list raises `IndexError`; the final recipients are
`",".join(sorted(set(receivers)))` (line 249). -/
def get_notify_receivers {σ : Type}
    (search_business : σ → Int → Except PyErr SearchBizResp)
    (roleMap : String → String)
    (supplier_account : σ) (biz_cc_id : Int)
    (receiver_group : ReceiverGroup) (more_receiver : String) :
    Except PyErr NotifyResult :=
  let more_receivers := (pySplit more_receiver ',').map pyStrip
  if receiver_group.isFalsy then
    Except.ok ⟨true, "success", some (String.intercalate "," more_receivers)⟩
  else
    match search_business supplier_account biz_cc_id with
    | Except.error e => Except.error e
    | Except.ok cc_result =>
      if cc_result.result = false then
        Except.ok ⟨false, apiErrorMessage, none⟩
      else if cc_result.count ≠ 1 then
        Except.ok ⟨false, bizNotUniqueMessage, none⟩
      else
        match cc_result.info with
        | [] => Except.error (PyErr.raised "IndexError")
        | biz_data :: _ =>
          let receivers := receiver_group.toGroupList.foldl
            (fun acc group => acc ++ pySplit (biz_data (roleMap group)) ',') []
          let receivers :=
            if more_receiver.data.isEmpty then receivers
            else receivers ++ more_receivers
          Except.ok ⟨true, "success",
            some (String.intercalate "," (pySortedSet receivers))⟩

/-- One rule of a `host_property_filter`. -/
structure FilterRule where
  field : String
  op : String
  value : List String
deriving DecidableEq, Repr

/-- The `host_property_filter` dict. -/
structure PropFilter where
  condition : String
  rules : List FilterRule
deriving DecidableEq, Repr

/-- The kwargs both host functions pass to `batch_request`. -/
structure HostKwargs where
  bk_biz_id : Int
  bk_supplier_account : Int
  fields : List String
  host_property_filter : Option PropFilter
deriving DecidableEq, Repr

/-- The filter added for a truthy `ip_list` (lines 124-128 and 175-179). -/
def hostPropertyFilterFor (ip_list : List String) : PropFilter :=
  ⟨"AND", [⟨"bk_host_innerip", "in", ip_list⟩]⟩

/-- Python truthiness of the optional `ip_list` argument: `None` and `[]`
are falsy. -/
def pyTruthyList (ip_list : Option (List String)) : Bool :=
  match ip_list with
  | some l => !l.isEmpty
  | none => false

/-- Kwargs construction of `get_business_host_topo` (lines 122-128):
`{"bk_biz_id": ..., "bk_supplier_account": ..., "fields": host_fields or []}`
plus the filter `if ip_list:`. -/
def buildHostTopoKwargs (bk_biz_id supplier_account : Int)
    (host_fields : Option (List String)) (ip_list : Option (List String)) :
    HostKwargs :=
  let kwargs : HostKwargs := ⟨bk_biz_id, supplier_account, host_fields.getD [], none⟩
  if pyTruthyList ip_list then
    { kwargs with host_property_filter := some (hostPropertyFilterFor (ip_list.getD [])) }
  else kwargs

/-- Kwargs construction of `get_business_host` (lines 171-179), identical
in the source to the one of `get_business_host_topo`. -/
def buildHostKwargs (bk_biz_id supplier_account : Int)
    (host_fields : Option (List String)) (ip_list : Option (List String)) :
    HostKwargs :=
  let kwargs : HostKwargs := ⟨bk_biz_id, supplier_account, host_fields.getD [], none⟩
  if pyTruthyList ip_list then
    { kwargs with host_property_filter := some (hostPropertyFilterFor (ip_list.getD [])) }
  else kwargs

/-- One `{bk_module_id, bk_module_name}` entry. -/
structure ModuleInfo where
  bk_module_id : Int
  bk_module_name : String
deriving DecidableEq, Repr

/-- One `{bk_set_id, bk_set_name}` entry. -/
structure SetInfo where
  bk_set_id : Int
  bk_set_name : String
deriving DecidableEq, Repr

/-- One set of the `topo` field of a raw record, with its modules. -/
structure TopoSet where
  bk_set_id : Int
  bk_set_name : String
  module : List ModuleInfo
deriving DecidableEq, Repr

/-- One raw record returned by `list_biz_hosts_topo`: the `host` dict (kept
abstract) and the `topo` list. -/
structure HostTopo (H : Type) where
  host : H
  topo : List TopoSet

/-- One reshaped record of `get_business_host_topo`. -/
structure HostInfo (H : Type) where
  host : H
  module : List ModuleInfo
  set : List SetInfo

/-- The reshaping loop of `get_business_host_topo` (lines 133-144): per
record keep the host, collect `{bk_set_id, bk_set_name}` per parent set and
the `{bk_module_id, bk_module_name}` entries of every parent set in order. -/
def reshapeHostTopo {H : Type} (ht : HostTopo H) : HostInfo H :=
  { host := ht.host
  , module := (ht.topo.map (fun s => s.module.map
      (fun m => ModuleInfo.mk m.bk_module_id m.bk_module_name))).flatten
  , set := ht.topo.map (fun s => SetInfo.mk s.bk_set_id s.bk_set_name) }

/-- Model of `get_business_host_topo` (lines 82-146): build the kwargs, aggregate
via `batch_request` (fixed params carry no `"page"` key; default limit
500), reshape each record. -/
def get_business_host_topo {R H : Type}
    (func : Page → HostKwargs → Except PyErr R)
    (truthy : R → Bool) (resultFlag : R → Except PyErr Bool)
    (get_data : R → Except PyErr (List (HostTopo H)))
    (get_count : R → Except PyErr Nat)
    (bk_biz_id supplier_account : Int)
    (host_fields : Option (List String)) (ip_list : Option (List String)) :
    Except PyErr (List (HostInfo H)) :=
  match batch_request func truthy resultFlag none
      (buildHostTopoKwargs bk_biz_id supplier_account host_fields ip_list)
      get_data get_count 500 with
  | Except.error e => Except.error e
  | Except.ok result => Except.ok (result.map reshapeHostTopo)

/-- Model of `get_business_host` (lines 149-181): build the kwargs and return the
aggregation unchanged (fixed params carry no `"page"` key; default limit
500). -/
def get_business_host {R α : Type}
    (func : Page → HostKwargs → Except PyErr R)
    (truthy : R → Bool) (resultFlag : R → Except PyErr Bool)
    (get_data : R → Except PyErr (List α)) (get_count : R → Except PyErr Nat)
    (bk_biz_id supplier_account : Int)
    (host_fields : Option (List String)) (ip_list : Option (List String)) :
    Except PyErr (List α) :=
  batch_request func truthy resultFlag none
    (buildHostKwargs bk_biz_id supplier_account host_fields ip_list)
    get_data get_count 500

/-- Concrete response record for concrete instances: the fields of a
typical ESB envelope, as read by the accessors (`result` flag, truthiness
of the whole dict, `data.count`, `data.info`). -/
structure TestResp where
  flag : Bool
  truthyB : Bool
  count : Nat
  info : List Nat
deriving DecidableEq, Repr

/-- Truthiness of a concrete response: a non-empty dict is truthy. -/
def testTruthy (r : TestResp) : Bool := r.truthyB

/-- Accessor `result["result"]` on a concrete response. -/
def testFlag (r : TestResp) : Except PyErr Bool := Except.ok r.flag

/-- Default item extractor `x["data"]["info"]` on a concrete response. -/
def testGetData (r : TestResp) : Except PyErr (List Nat) := Except.ok r.info

/-- Default count extractor `x["data"]["count"]` on a concrete response. -/
def testGetCount (r : TestResp) : Except PyErr Nat := Except.ok r.count

/-- Adapter whose probe response reports one record and whose single page
window returns an ordinary non-empty failure envelope: `result` flag
`False`, object truthy, items `[7]`. -/
def c1Func : Page → Unit → Except PyErr TestResp :=
  fun p _ =>
    Except.ok (if p = Page.mk 0 1 then TestResp.mk true true 1 []
      else TestResp.mk false true 0 [7])

/-- Adapter for the amended C1 instance: probe reports 1000 records, window
`{0, 500}` succeeds with item `[1]`, window `{500, 500}` resolves to a
falsy object. -/
def c1wFunc : Page → Unit → Except PyErr TestResp :=
  fun p _ =>
    Except.ok
      (if p = Page.mk 0 1 then TestResp.mk true true 1000 []
       else if p = Page.mk 0 500 then TestResp.mk true true 0 [1]
       else TestResp.mk false false 0 [2])

/-- Adapter whose probe reports failure: `result` flag `False`. -/
def c3Func : Page → Unit → Except PyErr TestResp :=
  fun _ _ => Except.ok (TestResp.mk false true 0 [])

/-- Adapter for the end-to-end scenario: probe reports 3 records, the
single window `{0, 500}` returns items `[10, 20, 30]`. -/
def c4wFunc : Page → Unit → Except PyErr TestResp :=
  fun p _ =>
    Except.ok (if p = Page.mk 0 1 then TestResp.mk true true 3 [99]
      else TestResp.mk true true 0 [10, 20, 30])

/-- Adapter that raises on every call. -/
def c5Func : Page → Unit → Except PyErr TestResp :=
  fun _ _ => Except.error (PyErr.raised "boom")

/-- Total adapter that never raises: probe reports 2 records, every window
succeeds and returns its own offset as single item. -/
def okFunc : Page → Unit → Except PyErr TestResp :=
  fun p _ => Except.ok (TestResp.mk true true 2 [p.start])

/-- Predicate telling whether a Python call raised. -/
def raisesErr {β : Type} : Except PyErr β → Bool
  | Except.error _ => true
  | Except.ok _ => false

/-- Concrete business record for the recipient-resolution instance. -/
def c7Biz : String → String :=
  fun f => if f = "bk_biz_maintainer" then "u2,u1" else "zz"

/-- Concrete `cc.search_business` returning exactly one business. -/
def c7Search : Unit → Int → Except PyErr SearchBizResp :=
  fun _ _ => Except.ok ⟨true, 1, [c7Biz]⟩

/-- Concrete role table for the recipient-resolution instance. -/
def c7RoleMap : String → String :=
  fun g => if g = "Maintainers" then "bk_biz_maintainer" else g

theorem numPages_zero (limit : Nat) (h : 0 < limit) : numPages 0 limit = 0 := by
  unfold numPages
  exact Nat.div_eq_of_lt (by omega)

theorem numPages_step (a limit : Nat) (ha : 0 < a) (h : 0 < limit) :
    numPages a limit = numPages (a - limit) limit + 1 := by
  unfold numPages
  rcases le_or_lt a limit with hle | hlt
  · have h1 : a - limit = 0 := by omega
    have h2 : a + limit - 1 = (a - 1) + limit := by omega
    rw [h1, h2, Nat.add_div_right _ h, Nat.div_eq_of_lt (show a - 1 < limit by omega),
      Nat.div_eq_of_lt (show 0 + limit - 1 < limit by omega)]
  · have h2 : a + limit - 1 = ((a - limit) + limit - 1) + limit := by omega
    rw [h2, Nat.add_div_right _ h]

theorem lt_numPages_iff (count limit i : Nat) (h : 0 < limit) :
    i < numPages count limit ↔ i * limit < count := by
  unfold numPages
  rw [Nat.lt_iff_add_one_le, Nat.le_div_iff_mul_le h]
  have hx : (i + 1) * limit = i * limit + limit := by ring
  rw [hx]
  omega

theorem planPagesAux_succ (limit count start fuel : Nat) :
    planPagesAux limit count start (fuel + 1)
      = if start < count then
          Page.mk start limit :: planPagesAux limit count (start + limit) fuel
        else [] := rfl

theorem planPagesAux_formula (limit count : Nat) (h : 0 < limit) :
    ∀ (fuel start : Nat), count ≤ start + fuel * limit →
      planPagesAux limit count start fuel
        = (List.range (numPages (count - start) limit)).map
            (fun i => Page.mk (start + i * limit) limit) := by
  intro fuel
  induction fuel with
  | zero =>
    intro start hfuel
    have h0 : count - start = 0 := by omega
    rw [h0, numPages_zero limit h]
    rfl
  | succ fuel ih =>
    intro start hfuel
    have hmul : (fuel + 1) * limit = fuel * limit + limit := by ring
    rw [hmul] at hfuel
    by_cases hs : start < count
    · rw [planPagesAux_succ, if_pos hs, ih (start + limit) (by omega)]
      have hsub : count - (start + limit) = count - start - limit := by omega
      rw [hsub, numPages_step (count - start) limit (by omega) h,
        List.range_succ_eq_map]
      simp only [List.map_cons, List.map_map]
      refine List.cons_eq_cons.mpr ⟨by simp, ?_⟩
      refine List.map_congr_left ?_
      intro i _
      simp only [Function.comp_apply]
      congr 1
      simp only [Nat.succ_mul]
      omega
    · rw [planPagesAux_succ, if_neg hs]
      have h0 : count - start = 0 := by omega
      rw [h0, numPages_zero limit h]
      rfl

theorem planPages_formula (count limit : Nat) (h : 0 < limit) :
    planPages count limit
      = (List.range (numPages count limit)).map (fun i => Page.mk (i * limit) limit) := by
  unfold planPages
  have h1 : count * 1 ≤ count * limit := Nat.mul_le_mul_left count h
  rw [planPagesAux_formula limit count h count 0 (by omega)]
  simp

theorem planPages_length (count limit : Nat) (h : 0 < limit) :
    (planPages count limit).length = numPages count limit := by
  rw [planPages_formula count limit h]
  simp

theorem planPages_getElem (count limit j : Nat) (h : 0 < limit)
    (hj : j < (planPages count limit).length) :
    (planPages count limit).get ⟨j, hj⟩ = Page.mk (j * limit) limit := by
  have hf := planPages_formula count limit h
  rw [List.get_eq_getElem, List.getElem_of_eq hf hj, List.getElem_map, List.getElem_range]

theorem effectivePage_none (p : Page) : effectivePage none p = p := rfl

theorem map_effectivePage_none (l : List Page) : l.map (effectivePage none) = l := by
  have h1 : l.map (effectivePage none) = l.map id := List.map_congr_left (fun p _ => rfl)
  rw [h1, List.map_id]

theorem stepResolve_length {τ : Type} (results : List τ) (fut : List (Option τ))
    (i : Nat) : (stepResolve results fut i).length = fut.length := by
  unfold stepResolve
  cases hr : results[i]? with
  | none => rfl
  | some r => simp

theorem foldl_stepResolve_length {τ : Type} (results : List τ) :
    ∀ (sched : List Nat) (fut : List (Option τ)),
      (sched.foldl (stepResolve results) fut).length = fut.length := by
  intro sched
  induction sched with
  | nil => intro fut; rfl
  | cons s rest ih =>
    intro fut
    rw [List.foldl_cons, ih, stepResolve_length]

theorem foldl_stepResolve_getElem_notMem {τ : Type} (results : List τ) :
    ∀ (sched : List Nat) (fut : List (Option τ)) (i : Nat), i ∉ sched →
      (sched.foldl (stepResolve results) fut)[i]? = fut[i]? := by
  intro sched
  induction sched with
  | nil => intro fut i _; rfl
  | cons s rest ih =>
    intro fut i hi
    have hne : i ≠ s := by
      intro hh
      exact hi (by rw [hh]; exact List.mem_cons_self s rest)
    have hnotin : i ∉ rest := fun hh => hi (List.mem_cons_of_mem s hh)
    rw [List.foldl_cons, ih _ i hnotin]
    unfold stepResolve
    cases hr : results[s]? with
    | none => rfl
    | some r => exact List.getElem?_set_ne (Ne.symm hne)

theorem foldl_stepResolve_getElem_mem {τ : Type} (results : List τ) :
    ∀ (sched : List Nat) (fut : List (Option τ)) (i : Nat),
      fut.length = results.length → i ∈ sched → i < results.length →
      (sched.foldl (stepResolve results) fut)[i]? = (results[i]?).map some := by
  intro sched
  induction sched with
  | nil =>
    intro fut i _ hmem _
    exact absurd hmem (List.not_mem_nil i)
  | cons s rest ih =>
    intro fut i hlen hmem hi
    rw [List.foldl_cons]
    by_cases hr : i ∈ rest
    · exact ih _ i (by rw [stepResolve_length]; exact hlen) hr hi
    · have his : i = s := by
        rcases List.mem_cons.mp hmem with h1 | h1
        · exact h1
        · exact absurd h1 hr
      subst his
      rw [foldl_stepResolve_getElem_notMem results rest _ i hr]
      unfold stepResolve
      have hsome : results[i]? = some (results.get ⟨i, hi⟩) := by
        rw [List.get_eq_getElem]
        exact List.getElem?_eq_getElem hi
      rw [hsome]
      simp only [Option.map_some]
      exact List.getElem?_set_self (by rw [hlen]; exact hi)

theorem runSched_covering {τ : Type} (results : List τ) (sched : List Nat)
    (hcov : ∀ i, i < results.length → i ∈ sched) :
    runSched results sched = results.map some := by
  apply List.ext_getElem?
  intro i
  by_cases hi : i < results.length
  · unfold runSched
    rw [foldl_stepResolve_getElem_mem results sched _ i (by simp) (hcov i hi) hi,
      List.getElem?_map]
  · have h1 : (runSched results sched).length ≤ i := by
      unfold runSched
      rw [foldl_stepResolve_length, List.length_replicate]
      omega
    rw [List.getElem?_eq_none h1, List.getElem?_eq_none (by simp; omega)]

theorem runSched_range {τ : Type} (results : List τ) :
    runSched results (List.range results.length) = results.map some :=
  runSched_covering results _ (fun i hi => List.mem_range.mpr hi)

theorem mergeTasks_nil {R α : Type} (truthy : R → Bool)
    (gd : R → Except PyErr (List α)) (acc : List α) :
    mergeTasks truthy gd acc [] = Except.ok acc := rfl

theorem mergeTasks_cons_ok {R α : Type} (truthy : R → Bool)
    (gd : R → Except PyErr (List α)) (acc : List α) (r : R)
    (ts : List (Option (Except PyErr R))) :
    mergeTasks truthy gd acc (some (Except.ok r) :: ts)
      = if truthy r then
          match gd r with
          | Except.error e => Except.error e
          | Except.ok d => mergeTasks truthy gd (acc ++ d) ts
        else Except.ok [] := rfl

theorem mergeTasks_cons_err {R α : Type} (truthy : R → Bool)
    (gd : R → Except PyErr (List α)) (acc : List α) (e : PyErr)
    (ts : List (Option (Except PyErr R))) :
    mergeTasks truthy gd acc (some (Except.error e) :: ts) = Except.error e := rfl

theorem mergeTasks_all_ok {R α : Type} (truthy : R → Bool)
    (gd : R → Except PyErr (List α)) (D : R → List α) :
    ∀ (rs : List R) (acc : List α),
      (∀ r ∈ rs, truthy r = true ∧ gd r = Except.ok (D r)) →
      mergeTasks truthy gd acc ((rs.map Except.ok).map some)
        = Except.ok (acc ++ (rs.map D).flatten) := by
  intro rs
  induction rs with
  | nil =>
    intro acc _
    simp [mergeTasks_nil]
  | cons r rest ih =>
    intro acc hall
    have hr := hall r (List.mem_cons_self r rest)
    simp only [List.map_cons, mergeTasks_cons_ok, hr.1, if_true, hr.2]
    rw [ih (acc ++ D r) (fun x hx => hall x (List.mem_cons_of_mem r hx))]
    simp [List.append_assoc]

theorem mergeTasks_total {R α : Type} (truthy : R → Bool)
    (gd : R → Except PyErr (List α)) :
    ∀ (rs : List R) (acc : List α),
      (∀ r ∈ rs, ∃ d, gd r = Except.ok d) →
      ∃ l, mergeTasks truthy gd acc ((rs.map Except.ok).map some) = Except.ok l := by
  intro rs
  induction rs with
  | nil =>
    intro acc _
    exact ⟨acc, rfl⟩
  | cons r rest ih =>
    intro acc hall
    obtain ⟨d, hd⟩ := hall r (List.mem_cons_self r rest)
    simp only [List.map_cons, mergeTasks_cons_ok, hd]
    cases htr : truthy r with
    | false => exact ⟨[], by simp⟩
    | true =>
      obtain ⟨l, hl⟩ := ih (acc ++ d) (fun x hx => hall x (List.mem_cons_of_mem r hx))
      exact ⟨l, hl⟩

theorem mergeTasks_falsy {R α : Type} (truthy : R → Bool)
    (gd : R → Except PyErr (List α)) :
    ∀ (ts : List (Except PyErr R)) (k : Nat) (acc : List α), k < ts.length →
      (∀ j, j < k →
        ∃ r d, ts[j]? = some (Except.ok r) ∧ truthy r = true ∧ gd r = Except.ok d) →
      (∃ r, ts[k]? = some (Except.ok r) ∧ truthy r = false) →
      mergeTasks truthy gd acc (ts.map some) = Except.ok [] := by
  intro ts
  induction ts with
  | nil =>
    intro k acc hk _ _
    exact absurd hk (by simp)
  | cons t rest ih =>
    intro k acc hk hpre hfail
    cases k with
    | zero =>
      obtain ⟨r, hr, htr⟩ := hfail
      simp only [List.getElem?_cons_zero, Option.some.injEq] at hr
      subst hr
      simp only [List.map_cons, mergeTasks_cons_ok, htr]
      simp
    | succ k =>
      obtain ⟨r, d, hr, htr, hd⟩ := hpre 0 (Nat.succ_pos k)
      simp only [List.getElem?_cons_zero, Option.some.injEq] at hr
      subst hr
      simp only [List.map_cons, mergeTasks_cons_ok, htr, if_true, hd]
      refine ih k (acc ++ d) (by simpa using hk) ?_ ?_
      · intro j hj
        have := hpre (j + 1) (by omega)
        simpa using this
      · obtain ⟨r2, hr2, htr2⟩ := hfail
        exact ⟨r2, by simpa using hr2, htr2⟩

theorem batch_request_def {ρ R α : Type} (func : Page → ρ → Except PyErr R)
    (truthy : R → Bool) (resultFlag : R → Except PyErr Bool)
    (pageKey : Option Page) (params : ρ)
    (gd : R → Except PyErr (List α)) (gc : R → Except PyErr Nat) (limit : Nat) :
    batch_request func truthy resultFlag pageKey params gd gc limit
      = batch_request_sched (fun n => List.range n) func truthy resultFlag pageKey
          params gd gc limit := rfl

theorem bs_probe_err {ρ R α : Type} (sched : Nat → List Nat)
    (func : Page → ρ → Except PyErr R) (truthy : R → Bool)
    (resultFlag : R → Except PyErr Bool) (pageKey : Option Page) (params : ρ)
    (gd : R → Except PyErr (List α)) (gc : R → Except PyErr Nat) (limit : Nat)
    (e : PyErr) (hp : probeCall func pageKey params = Except.error e) :
    batch_request_sched sched func truthy resultFlag pageKey params gd gc limit
      = Except.error e := by
  unfold batch_request_sched
  simp only [hp]

theorem bs_flag_err {ρ R α : Type} (sched : Nat → List Nat)
    (func : Page → ρ → Except PyErr R) (truthy : R → Bool)
    (resultFlag : R → Except PyErr Bool) (pageKey : Option Page) (params : ρ)
    (gd : R → Except PyErr (List α)) (gc : R → Except PyErr Nat) (limit : Nat)
    (pr : R) (e : PyErr) (hp : probeCall func pageKey params = Except.ok pr)
    (hf : resultFlag pr = Except.error e) :
    batch_request_sched sched func truthy resultFlag pageKey params gd gc limit
      = Except.error e := by
  unfold batch_request_sched
  simp only [hp, hf]

theorem bs_flag_false {ρ R α : Type} (sched : Nat → List Nat)
    (func : Page → ρ → Except PyErr R) (truthy : R → Bool)
    (resultFlag : R → Except PyErr Bool) (pageKey : Option Page) (params : ρ)
    (gd : R → Except PyErr (List α)) (gc : R → Except PyErr Nat) (limit : Nat)
    (pr : R) (hp : probeCall func pageKey params = Except.ok pr)
    (hf : resultFlag pr = Except.ok false) :
    batch_request_sched sched func truthy resultFlag pageKey params gd gc limit
      = Except.ok [] := by
  unfold batch_request_sched
  simp [hp, hf]

theorem bs_count_err {ρ R α : Type} (sched : Nat → List Nat)
    (func : Page → ρ → Except PyErr R) (truthy : R → Bool)
    (resultFlag : R → Except PyErr Bool) (pageKey : Option Page) (params : ρ)
    (gd : R → Except PyErr (List α)) (gc : R → Except PyErr Nat) (limit : Nat)
    (pr : R) (e : PyErr) (hp : probeCall func pageKey params = Except.ok pr)
    (hf : resultFlag pr = Except.ok true) (hc : gc pr = Except.error e) :
    batch_request_sched sched func truthy resultFlag pageKey params gd gc limit
      = Except.error e := by
  unfold batch_request_sched
  simp only [hp, hf, if_true, hc]

theorem bs_merge {ρ R α : Type} (sched : Nat → List Nat)
    (func : Page → ρ → Except PyErr R) (truthy : R → Bool)
    (resultFlag : R → Except PyErr Bool) (pageKey : Option Page) (params : ρ)
    (gd : R → Except PyErr (List α)) (gc : R → Except PyErr Nat) (limit : Nat)
    (pr : R) (count : Nat) (hp : probeCall func pageKey params = Except.ok pr)
    (hf : resultFlag pr = Except.ok true) (hc : gc pr = Except.ok count) :
    batch_request_sched sched func truthy resultFlag pageKey params gd gc limit
      = mergeTasks truthy gd []
          (runSched
            (((planPages count limit).map (effectivePage pageKey)).map
              (fun p => func p params))
            (sched (((planPages count limit).map (effectivePage pageKey)).map
              (fun p => func p params)).length)) := by
  unfold batch_request_sched
  simp only [hp, hf, if_true, hc]

theorem batch_request_sched_eq_of_covering {ρ R α : Type} (sched : Nat → List Nat)
    (hcov : ∀ n i, i < n → i ∈ sched n) (func : Page → ρ → Except PyErr R)
    (truthy : R → Bool) (resultFlag : R → Except PyErr Bool)
    (pageKey : Option Page) (params : ρ)
    (gd : R → Except PyErr (List α)) (gc : R → Except PyErr Nat) (limit : Nat) :
    batch_request_sched sched func truthy resultFlag pageKey params gd gc limit
      = batch_request func truthy resultFlag pageKey params gd gc limit := by
  rw [batch_request_def]
  cases hp : probeCall func pageKey params with
  | error e =>
    rw [bs_probe_err sched func truthy resultFlag pageKey params gd gc limit e hp,
      bs_probe_err (fun n => List.range n) func truthy resultFlag pageKey params gd gc limit e hp]
  | ok pr =>
    cases hf : resultFlag pr with
    | error e =>
      rw [bs_flag_err sched func truthy resultFlag pageKey params gd gc limit pr e hp hf,
        bs_flag_err (fun n => List.range n) func truthy resultFlag pageKey params gd gc limit pr e hp hf]
    | ok flag =>
      cases flag with
      | false =>
        rw [bs_flag_false sched func truthy resultFlag pageKey params gd gc limit pr hp hf,
          bs_flag_false (fun n => List.range n) func truthy resultFlag pageKey params gd gc limit pr hp hf]
      | true =>
        cases hc : gc pr with
        | error e =>
          rw [bs_count_err sched func truthy resultFlag pageKey params gd gc limit pr e hp hf hc,
            bs_count_err (fun n => List.range n) func truthy resultFlag pageKey params gd gc limit pr e hp hf hc]
        | ok count =>
          rw [bs_merge sched func truthy resultFlag pageKey params gd gc limit pr count hp hf hc,
            bs_merge (fun n => List.range n) func truthy resultFlag pageKey params gd gc limit pr count hp hf hc,
            runSched_covering _ _ (fun i hi => hcov _ i hi),
            runSched_covering _ _ (fun i hi => List.mem_range.mpr hi)]

theorem batch_request_probe_ok {ρ R α : Type} (func : Page → ρ → Except PyErr R)
    (truthy : R → Bool) (resultFlag : R → Except PyErr Bool) (params : ρ)
    (gd : R → Except PyErr (List α)) (gc : R → Except PyErr Nat) (limit : Nat)
    (pr : R) (count : Nat)
    (hprobe : func (Page.mk 0 1) params = Except.ok pr)
    (hflag : resultFlag pr = Except.ok true)
    (hcount : gc pr = Except.ok count) :
    batch_request func truthy resultFlag none params gd gc limit
      = mergeTasks truthy gd []
          (((planPages count limit).map (fun p => func p params)).map some) := by
  simp only [batch_request, batch_request_sched, probeCall, hprobe, hflag, if_true,
    hcount, map_effectivePage_none, runSched_range]

theorem lexLe_total : ∀ (a b : List Char), lexLe a b = true ∨ lexLe b a = true := by
  intro a
  induction a with
  | nil => intro b; left; rfl
  | cons x xs ih =>
    intro b
    cases b with
    | nil => right; rfl
    | cons y ys =>
      simp only [lexLe]
      rcases Nat.lt_trichotomy x.toNat y.toNat with h | h | h
      · left
        rw [if_pos h]
      · rcases ih ys with h2 | h2
        · left
          rw [if_neg (by omega), if_neg (by omega)]
          exact h2
        · right
          rw [if_neg (by omega), if_neg (by omega)]
          exact h2
      · right
        rw [if_pos h]

theorem lexLe_trans : ∀ (a b c : List Char),
    lexLe a b = true → lexLe b c = true → lexLe a c = true := by
  intro a
  induction a with
  | nil => intro b c _ _; rfl
  | cons x xs ih =>
    intro b c hab hbc
    cases b with
    | nil => exact absurd hab (by simp [lexLe])
    | cons y ys =>
      cases c with
      | nil => exact absurd hbc (by simp [lexLe])
      | cons z zs =>
        simp only [lexLe] at hab hbc ⊢
        have hxy_le : x.toNat ≤ y.toNat := by
          by_contra hh
          rw [if_neg (by omega), if_pos (by omega)] at hab
          exact Bool.false_ne_true hab
        have hyz_le : y.toNat ≤ z.toNat := by
          by_contra hh
          rw [if_neg (by omega), if_pos (by omega)] at hbc
          exact Bool.false_ne_true hbc
        by_cases h1 : x.toNat < z.toNat
        · rw [if_pos h1]
        · have hxy : x.toNat = y.toNat := by omega
          have hyz : y.toNat = z.toNat := by omega
          rw [if_neg h1, if_neg (by omega)]
          have hab2 : lexLe xs ys = true := by
            rw [if_neg (by omega), if_neg (by omega)] at hab
            exact hab
          have hbc2 : lexLe ys zs = true := by
            rw [if_neg (by omega), if_neg (by omega)] at hbc
            exact hbc
          exact ih ys zs hab2 hbc2

theorem pyLeR_total : ∀ (a b : String), pyLeR a b ∨ pyLeR b a := by
  intro a b
  exact lexLe_total a.data b.data

theorem pyLeR_trans : ∀ (a b c : String), pyLeR a b → pyLeR b c → pyLeR a c := by
  intro a b c hab hbc
  exact lexLe_trans a.data b.data c.data hab hbc

theorem pySortedSet_sorted (l : List String) : (pySortedSet l).Sorted pyLeR := by
  unfold pySortedSet
  exact @List.sorted_insertionSort String pyLeR _ ⟨pyLeR_total⟩ ⟨pyLeR_trans⟩ l.dedup

theorem pySortedSet_nodup (l : List String) : (pySortedSet l).Nodup := by
  unfold pySortedSet
  exact (List.perm_insertionSort pyLeR l.dedup).nodup_iff.mpr (List.nodup_dedup l)

theorem pySortedSet_mem (l : List String) (x : String) :
    x ∈ pySortedSet l ↔ x ∈ l := by
  unfold pySortedSet
  rw [(List.perm_insertionSort pyLeR l.dedup).mem_iff, List.mem_dedup]

theorem mem_foldl_append {β : Type} (f : β → List String) :
    ∀ (gs : List β) (init : List String) (x : String),
      x ∈ gs.foldl (fun acc g => acc ++ f g) init ↔ x ∈ init ∨ ∃ g ∈ gs, x ∈ f g := by
  intro gs
  induction gs with
  | nil =>
    intro init x
    simp
  | cons g rest ih =>
    intro init x
    rw [List.foldl_cons, ih]
    simp only [List.mem_append, List.mem_cons]
    constructor
    · rintro ((h | h) | ⟨g2, hg2, hx⟩)
      · exact Or.inl h
      · exact Or.inr ⟨g, Or.inl rfl, h⟩
      · exact Or.inr ⟨g2, Or.inr hg2, hx⟩
    · rintro (h | ⟨g2, (hg2 | hg2), hx⟩)
      · exact Or.inl (Or.inl h)
      · exact Or.inl (Or.inr (hg2 ▸ hx))
      · exact Or.inr ⟨g2, hg2, hx⟩

theorem mergeTasks_all_ok_map {R α β : Type} (truthy : R → Bool)
    (gd : R → Except PyErr (List α)) (emb : β → R) (D : β → List α) :
    ∀ (ps : List β) (acc : List α),
      (∀ p ∈ ps, truthy (emb p) = true ∧ gd (emb p) = Except.ok (D p)) →
      mergeTasks truthy gd acc (((ps.map emb).map Except.ok).map some)
        = Except.ok (acc ++ (ps.map D).flatten) := by
  intro ps
  induction ps with
  | nil =>
    intro acc _
    simp [mergeTasks_nil]
  | cons p rest ih =>
    intro acc hall
    have hp := hall p (List.mem_cons_self p rest)
    simp only [List.map_cons, mergeTasks_cons_ok, hp.1, if_true, hp.2]
    rw [ih (acc ++ D p) (fun x hx => hall x (List.mem_cons_of_mem p hx))]
    simp [List.append_assoc]

/-- C2: for every count and every positive limit, the page plan computed
inside `batch_request` is exactly the windows at offsets `0, limit,
2*limit, ...` for every such offset strictly below `count`, each of size
`limit` with no clamping of the last window; the windows are contiguous,
ordered by offset ascending and cover `[0, count)`; `count = 0` yields the
empty plan, and `count = 1200` with `limit = 500` yields exactly
`{0,500}, {500,500}, {1000,500}`. -/
theorem spec_c2_page_plan (count limit : Nat) (h : 0 < limit) :
    planPages count limit
        = (List.range (numPages count limit)).map (fun i => Page.mk (i * limit) limit)
      ∧ (∀ i : Nat, i < numPages count limit ↔ i * limit < count)
      ∧ (∀ w ∈ planPages count limit, w.limit = limit ∧ w.start < count)
      ∧ (∀ j (hj : j + 1 < (planPages count limit).length),
          ((planPages count limit).get ⟨j + 1, hj⟩).start
            = ((planPages count limit).get ⟨j, Nat.lt_of_succ_lt hj⟩).start + limit)
      ∧ (∀ j (hj : j + 1 < (planPages count limit).length),
          ((planPages count limit).get ⟨j, Nat.lt_of_succ_lt hj⟩).start
            < ((planPages count limit).get ⟨j + 1, hj⟩).start)
      ∧ (∀ x, x < count → ∃ w ∈ planPages count limit,
          w.start ≤ x ∧ x < w.start + w.limit)
      ∧ (count = 0 → planPages count limit = [])
      ∧ planPages 1200 500 = [Page.mk 0 500, Page.mk 500 500, Page.mk 1000 500] := by
  refine ⟨planPages_formula count limit h, fun i => lt_numPages_iff count limit i h,
    ?_, ?_, ?_, ?_, ?_, by decide⟩
  · intro w hw
    rw [planPages_formula count limit h] at hw
    obtain ⟨i, hi, rfl⟩ := List.mem_map.mp hw
    exact ⟨rfl, (lt_numPages_iff count limit i h).mp (List.mem_range.mp hi)⟩
  · intro j hj
    rw [planPages_getElem count limit (j + 1) h hj,
      planPages_getElem count limit j h (Nat.lt_of_succ_lt hj)]
    have : (j + 1) * limit = j * limit + limit := by ring
    rw [this]
  · intro j hj
    rw [planPages_getElem count limit (j + 1) h hj,
      planPages_getElem count limit j h (Nat.lt_of_succ_lt hj)]
    show j * limit < (j + 1) * limit
    have : (j + 1) * limit = j * limit + limit := by ring
    omega
  · intro x hx
    have h1 : x / limit * limit ≤ x := Nat.div_mul_le_self x limit
    have h2 : x < x / limit * limit + limit := by
      have h3 := Nat.div_add_mod x limit
      have h4 := Nat.mod_lt x h
      have h5 : x / limit * limit = limit * (x / limit) := Nat.mul_comm _ _
      omega
    refine ⟨Page.mk (x / limit * limit) limit, ?_, h1, h2⟩
    rw [planPages_formula count limit h]
    exact List.mem_map.mpr ⟨x / limit,
      List.mem_range.mpr ((lt_numPages_iff count limit _ h).mpr (by omega)), rfl⟩
  · intro h0
    subst h0
    rfl

/-- Concrete check of C2: the hypothesis `0 < 500` holds, and the 1200/500
plan is as stated. -/
theorem spec_c2_page_plan_witness :
    0 < 500 ∧ planPages 1200 500 = [Page.mk 0 500, Page.mk 500 500, Page.mk 1000 500] :=
  ⟨by decide, (spec_c2_page_plan 1200 500 (by decide)).2.2.2.2.2.2.2⟩

/-- C3: when the probe response arrives with success flag `False`,
`batch_request` returns `[]` and the adapter was invoked exactly once, with
the window `{start: 0, limit: 1}`. -/
theorem spec_c3_probe_failure {ρ R α : Type} (func : Page → ρ → Except PyErr R)
    (truthy : R → Bool) (resultFlag : R → Except PyErr Bool) (params : ρ)
    (gd : R → Except PyErr (List α)) (gc : R → Except PyErr Nat) (limit : Nat)
    (pr : R) (hprobe : func (Page.mk 0 1) params = Except.ok pr)
    (hflag : resultFlag pr = Except.ok false) :
    batch_request func truthy resultFlag none params gd gc limit = Except.ok []
      ∧ batch_request_calls func resultFlag none params gc limit = [Page.mk 0 1] := by
  constructor
  · rw [batch_request_def]
    exact bs_flag_false _ func truthy resultFlag none params gd gc limit pr hprobe hflag
  · unfold batch_request_calls
    simp [hprobe, hflag]

/-- Concrete check of C3 at a probe whose flag is `False`. -/
theorem spec_c3_probe_failure_witness :
    batch_request c3Func testTruthy testFlag none () testGetData testGetCount 500
        = Except.ok []
      ∧ batch_request_calls c3Func testFlag none () testGetCount 500 = [Page.mk 0 1] :=
  spec_c3_probe_failure c3Func testTruthy testFlag () testGetData testGetCount 500
    (TestResp.mk false true 0 []) rfl rfl

/-- C4: when the probe succeeds and every page window succeeds (truthy
response, items extracted), `batch_request` returns the concatenation, in
window submission order, of the extracted items of every window, and the
length of the result is the sum of the per-window item counts. -/
theorem spec_c4_all_success {ρ R α : Type} (func : Page → ρ → Except PyErr R)
    (truthy : R → Bool) (resultFlag : R → Except PyErr Bool) (params : ρ)
    (gd : R → Except PyErr (List α)) (gc : R → Except PyErr Nat) (limit : Nat)
    (pr : R) (count : Nat) (F : Page → R) (D : Page → List α)
    (hprobe : func (Page.mk 0 1) params = Except.ok pr)
    (hflag : resultFlag pr = Except.ok true)
    (hcount : gc pr = Except.ok count)
    (hF : ∀ p ∈ planPages count limit,
      func p params = Except.ok (F p) ∧ truthy (F p) = true ∧ gd (F p) = Except.ok (D p)) :
    batch_request func truthy resultFlag none params gd gc limit
        = Except.ok (((planPages count limit).map D).flatten)
      ∧ (((planPages count limit).map D).flatten).length
        = (((planPages count limit).map D).map List.length).sum := by
  refine ⟨?_, List.length_flatten _⟩
  rw [batch_request_probe_ok func truthy resultFlag params gd gc limit pr count
    hprobe hflag hcount]
  have hmap : (planPages count limit).map (fun p => func p params)
      = ((planPages count limit).map F).map Except.ok := by
    rw [List.map_map]
    exact List.map_congr_left (fun p hp => (hF p hp).1)
  rw [hmap]
  have := mergeTasks_all_ok_map truthy gd F D (planPages count limit) []
    (fun p hp => ⟨(hF p hp).2.1, (hF p hp).2.2⟩)
  simpa using this

/-- Concrete check of C4, the end-to-end scenario of the spec: probe
reports `count = 3`, a single window `{0, 500}` returns three records, the
output is those three records in order. -/
theorem spec_c4_all_success_witness :
    batch_request c4wFunc testTruthy testFlag none () testGetData testGetCount 500
      = Except.ok [10, 20, 30] := by
  have hF : ∀ p ∈ planPages 3 500,
      c4wFunc p () = Except.ok ((fun _ => TestResp.mk true true 0 [10, 20, 30]) p)
        ∧ testTruthy ((fun _ => TestResp.mk true true 0 [10, 20, 30]) p) = true
        ∧ testGetData ((fun _ => TestResp.mk true true 0 [10, 20, 30]) p)
            = Except.ok ((fun _ => [10, 20, 30]) p) := by
    intro p hp
    have hp3 : planPages 3 500 = [Page.mk 0 500] := rfl
    rw [hp3, List.mem_singleton] at hp
    subst hp
    exact ⟨rfl, rfl, rfl⟩
  have h := spec_c4_all_success c4wFunc testTruthy testFlag () testGetData testGetCount
    500 (TestResp.mk true true 3 [99]) 3 (fun _ => TestResp.mk true true 0 [10, 20, 30])
    (fun _ => [10, 20, 30]) rfl rfl rfl hF
  rw [h.1]
  rfl

/-- C1 as stated is false: a page window whose response envelope has
success flag `False` but is a truthy (non-empty) object is not detected by
the merge loop, which tests `if not result:` — the envelope's items are
returned instead of `[]`. -/
theorem spec_c1_counterexample :
    testFlag (TestResp.mk false true 0 [7]) = Except.ok false
      ∧ c1Func (Page.mk 0 500) () = Except.ok (TestResp.mk false true 0 [7])
      ∧ batch_request c1Func testTruthy testFlag none () testGetData testGetCount 500
          = Except.ok [7]
      ∧ Except.ok [7] ≠ (Except.ok [] : Except PyErr (List Nat)) :=
  ⟨rfl, rfl, rfl, by simp⟩

/-- C1 amended: the merge loop, iterating tasks in submission order,
returns `[]` on the first window whose resolved response object is falsy
(Python truthiness of the whole object, not the `result` flag), discarding
the records already extracted from the earlier, successful windows. -/
theorem spec_c1_amended {ρ R α : Type} (func : Page → ρ → Except PyErr R)
    (truthy : R → Bool) (resultFlag : R → Except PyErr Bool) (params : ρ)
    (gd : R → Except PyErr (List α)) (gc : R → Except PyErr Nat) (limit : Nat)
    (pr : R) (count k : Nat)
    (hprobe : func (Page.mk 0 1) params = Except.ok pr)
    (hflag : resultFlag pr = Except.ok true)
    (hcount : gc pr = Except.ok count)
    (hk : k < (planPages count limit).length)
    (hpre : ∀ j, j < k → ∃ r d,
      ((planPages count limit).map (fun p => func p params))[j]? = some (Except.ok r)
        ∧ truthy r = true ∧ gd r = Except.ok d)
    (hfail : ∃ r,
      ((planPages count limit).map (fun p => func p params))[k]? = some (Except.ok r)
        ∧ truthy r = false) :
    batch_request func truthy resultFlag none params gd gc limit = Except.ok [] := by
  rw [batch_request_probe_ok func truthy resultFlag params gd gc limit pr count
    hprobe hflag hcount]
  exact mergeTasks_falsy truthy gd _ k [] (by simpa using hk) hpre hfail

/-- Concrete check of the amended C1: two windows, the first succeeds with
one record, the second resolves to a falsy object; the result is `[]`. -/
theorem spec_c1_amended_witness :
    batch_request c1wFunc testTruthy testFlag none () testGetData testGetCount 500
      = Except.ok [] := by
  refine spec_c1_amended c1wFunc testTruthy testFlag () testGetData testGetCount 500
    (TestResp.mk true true 1000 []) 1000 1 rfl rfl rfl (by decide) ?_ ?_
  · intro j hj
    have hj0 : j = 0 := by omega
    subst hj0
    exact ⟨TestResp.mk true true 0 [1], [1], rfl, rfl, rfl⟩
  · exact ⟨TestResp.mk false false 0 [2], rfl, rfl⟩

/-- C5 as stated is false: an exception raised by the adapter during the
probe call propagates out of `batch_request` instead of being swallowed
into an empty-list result. -/
theorem spec_c5_counterexample :
    batch_request c5Func testTruthy testFlag none () testGetData testGetCount 500
        = Except.error (PyErr.raised "boom")
      ∧ raisesErr (batch_request c5Func testTruthy testFlag none ()
          testGetData testGetCount 500) = true :=
  ⟨rfl, rfl⟩

/-- C5 amended: when the caller params carry no `page` key and the adapter
and the extractor callbacks return normally on every input (none of them
raises), `batch_request` never raises: reported failures are swallowed into
a returned list (the empty one). -/
theorem spec_c5_amended {ρ R α : Type} (func : Page → ρ → Except PyErr R)
    (truthy : R → Bool) (resultFlag : R → Except PyErr Bool) (params : ρ)
    (gd : R → Except PyErr (List α)) (gc : R → Except PyErr Nat) (limit : Nat)
    (F : Page → R) (FL : R → Bool) (C : R → Nat) (DT : R → List α)
    (hfunc : ∀ p, func p params = Except.ok (F p))
    (hflag : ∀ r, resultFlag r = Except.ok (FL r))
    (hcount : ∀ r, gc r = Except.ok (C r))
    (hdata : ∀ r, gd r = Except.ok (DT r)) :
    ∃ l, batch_request func truthy resultFlag none params gd gc limit
      = Except.ok l := by
  cases hb : FL (F (Page.mk 0 1)) with
  | false =>
    refine ⟨[], ?_⟩
    rw [batch_request_def]
    exact bs_flag_false _ func truthy resultFlag none params gd gc limit
      (F (Page.mk 0 1)) (hfunc (Page.mk 0 1)) (by rw [hflag, hb])
  | true =>
    rw [batch_request_probe_ok func truthy resultFlag params gd gc limit
      (F (Page.mk 0 1)) (C (F (Page.mk 0 1))) (hfunc (Page.mk 0 1))
      (by rw [hflag, hb]) (hcount (F (Page.mk 0 1)))]
    have hmap : (planPages (C (F (Page.mk 0 1))) limit).map (fun p => func p params)
        = ((planPages (C (F (Page.mk 0 1))) limit).map F).map Except.ok := by
      rw [List.map_map]
      exact List.map_congr_left (fun p _ => hfunc p)
    rw [hmap]
    exact mergeTasks_total truthy gd _ [] (fun r _ => ⟨DT r, hdata r⟩)

/-- Concrete check of the amended C5: a total adapter and total extractors
yield an `Except.ok` result. -/
theorem spec_c5_amended_witness :
    ∃ l, batch_request okFunc testTruthy testFlag none () testGetData testGetCount 500
      = Except.ok l :=
  spec_c5_amended okFunc testTruthy testFlag () testGetData testGetCount 500
    (fun p => TestResp.mk true true 2 [p.start]) (fun r => r.flag) (fun r => r.count)
    (fun r => r.info) (fun _ => rfl) (fun _ => rfl) (fun _ => rfl) (fun _ => rfl)

/-- C6: against an adapter that is a pure function of its request
parameters, the merged output is independent of the completion order of the
concurrent page fetches: any two covering completion schedules yield the
same list, equal to the canonical `batch_request` result; two calls with
identical arguments are identical. -/
theorem spec_c6_deterministic {ρ R α : Type} (sched₁ sched₂ : Nat → List Nat)
    (h₁ : ∀ n i, i < n → i ∈ sched₁ n) (h₂ : ∀ n i, i < n → i ∈ sched₂ n)
    (func : Page → ρ → Except PyErr R) (truthy : R → Bool)
    (resultFlag : R → Except PyErr Bool) (pageKey : Option Page) (params : ρ)
    (gd : R → Except PyErr (List α)) (gc : R → Except PyErr Nat) (limit : Nat) :
    batch_request_sched sched₁ func truthy resultFlag pageKey params gd gc limit
        = batch_request_sched sched₂ func truthy resultFlag pageKey params gd gc limit
      ∧ batch_request_sched sched₁ func truthy resultFlag pageKey params gd gc limit
        = batch_request func truthy resultFlag pageKey params gd gc limit := by
  have e1 := batch_request_sched_eq_of_covering sched₁ h₁ func truthy resultFlag
    pageKey params gd gc limit
  have e2 := batch_request_sched_eq_of_covering sched₂ h₂ func truthy resultFlag
    pageKey params gd gc limit
  exact ⟨e1.trans e2.symm, e1⟩

/-- Concrete check of C6: resolving the two windows in reverse order yields
the same output as resolving them in submission order. -/
theorem spec_c6_deterministic_witness :
    batch_request_sched (fun n => (List.range n).reverse) okFunc testTruthy testFlag
        none () testGetData testGetCount 1
        = batch_request_sched (fun n => List.range n) okFunc testTruthy testFlag
            none () testGetData testGetCount 1
      ∧ batch_request_sched (fun n => (List.range n).reverse) okFunc testTruthy testFlag
          none () testGetData testGetCount 1
        = batch_request okFunc testTruthy testFlag none () testGetData testGetCount 1 :=
  spec_c6_deterministic (fun n => (List.range n).reverse) (fun n => List.range n)
    (fun n i hi => List.mem_reverse.mpr (List.mem_range.mpr hi))
    (fun n i hi => List.mem_range.mpr hi)
    okFunc testTruthy testFlag none () testGetData testGetCount 1

/-- C8 as stated is false: when the caller params contain a `page` key, the
probe call raises `TypeError` (duplicate keyword argument) before any
adapter call, so no page fetch is ever issued with the caller's page value;
`batch_request` propagates the exception. -/
theorem spec_c8_counterexample :
    batch_request okFunc testTruthy testFlag (some (Page.mk 3 3)) () testGetData
        testGetCount 500
        = Except.error PyErr.typeErrorDuplicatePageKwarg
      ∧ batch_request_calls okFunc testFlag (some (Page.mk 3 3)) () testGetCount 500
        = [] :=
  ⟨rfl, rfl⟩

/-- C8 amended: a `page` key in the caller params makes the probe call
raise `TypeError: got multiple values for keyword argument page`, which
propagates out of `batch_request` with zero adapter invocations; only when
the params carry no `page` key does each page-fetch request carry its own
planned window unchanged. -/
theorem spec_c8_amended {ρ R α : Type} (func : Page → ρ → Except PyErr R)
    (truthy : R → Bool) (resultFlag : R → Except PyErr Bool) (pg : Page) (params : ρ)
    (gd : R → Except PyErr (List α)) (gc : R → Except PyErr Nat) (limit : Nat) :
    batch_request func truthy resultFlag (some pg) params gd gc limit
        = Except.error PyErr.typeErrorDuplicatePageKwarg
      ∧ batch_request_calls func resultFlag (some pg) params gc limit = []
      ∧ ∀ count, (planPages count limit).map (effectivePage none) = planPages count limit := by
  refine ⟨?_, rfl, fun count => map_effectivePage_none _⟩
  rw [batch_request_def]
  exact bs_probe_err _ func truthy resultFlag (some pg) params gd gc limit
    PyErr.typeErrorDuplicatePageKwarg rfl

/-- C7: with a non-empty receiver group and a business lookup returning
success with exactly one business, the recipients string is the comma-join
of a sorted, duplicate-free list containing exactly the role-table members
of every requested group plus, when `more_receiver` is non-empty, the
stripped names of `more_receiver`. -/
theorem spec_c7_receivers {σ : Type}
    (search_business : σ → Int → Except PyErr SearchBizResp)
    (roleMap : String → String) (supplier_account : σ) (biz_cc_id : Int)
    (receiver_group : ReceiverGroup) (more_receiver : String)
    (biz : String → String) (rest : List (String → String))
    (hgrp : receiver_group.isFalsy = false)
    (hsb : search_business supplier_account biz_cc_id
      = Except.ok (SearchBizResp.mk true 1 (biz :: rest))) :
    ∃ l, get_notify_receivers search_business roleMap supplier_account biz_cc_id
          receiver_group more_receiver
          = Except.ok (NotifyResult.mk true "success" (some (String.intercalate "," l)))
      ∧ l.Sorted pyLeR ∧ l.Nodup
      ∧ (∀ x, x ∈ l ↔
          (∃ g ∈ receiver_group.toGroupList, x ∈ pySplit (biz (roleMap g)) ',')
            ∨ (more_receiver.data.isEmpty = false
                ∧ x ∈ (pySplit more_receiver ',').map pyStrip)) := by
  have key : get_notify_receivers search_business roleMap supplier_account biz_cc_id
      receiver_group more_receiver
      = Except.ok (NotifyResult.mk true "success" (some (String.intercalate ","
          (pySortedSet
            (if more_receiver.data.isEmpty
              then receiver_group.toGroupList.foldl
                (fun acc g => acc ++ pySplit (biz (roleMap g)) ',') []
              else receiver_group.toGroupList.foldl
                (fun acc g => acc ++ pySplit (biz (roleMap g)) ',') []
                ++ (pySplit more_receiver ',').map pyStrip))))) := by
    unfold get_notify_receivers
    rw [hgrp, hsb]
    rfl
  refine ⟨_, key, pySortedSet_sorted _, pySortedSet_nodup _, ?_⟩
  intro x
  rw [pySortedSet_mem]
  by_cases hm : more_receiver.data.isEmpty = true
  · rw [if_pos hm, mem_foldl_append]
    simp [hm]
  · have hm2 : more_receiver.data.isEmpty = false := by
      cases hq : more_receiver.data.isEmpty
      · rfl
      · exact absurd hq hm
    rw [if_neg hm, List.mem_append, mem_foldl_append]
    simp [hm2]

/-- Concrete check of C7: one group mapped through the role table to the
member string `u2,u1`, extra recipients `u3, u1`. -/
theorem spec_c7_receivers_witness :
    ∃ l, get_notify_receivers c7Search c7RoleMap () 1
          (ReceiverGroup.ofString "Maintainers") "u3, u1"
          = Except.ok (NotifyResult.mk true "success" (some (String.intercalate "," l)))
      ∧ l.Sorted pyLeR ∧ l.Nodup
      ∧ (∀ x, x ∈ l ↔
          (∃ g ∈ (ReceiverGroup.ofString "Maintainers").toGroupList,
            x ∈ pySplit (c7Biz (c7RoleMap g)) ',')
            ∨ (("u3, u1" : String).data.isEmpty = false
                ∧ x ∈ (pySplit "u3, u1" ',').map pyStrip)) :=
  spec_c7_receivers c7Search c7RoleMap () 1 (ReceiverGroup.ofString "Maintainers")
    "u3, u1" c7Biz [] rfl rfl

/-- C9: a falsy receiver group short-circuits: no business lookup is
consulted (the result holds for every `search_business`), the result is
success with the names of `more_receiver` split on commas, stripped and
re-joined — neither deduplicated nor sorted, unlike the non-empty-group
branch, as the repeated and unsorted `b, a ,b` shows. -/
theorem spec_c9_empty_group {σ : Type}
    (search_business : σ → Int → Except PyErr SearchBizResp)
    (roleMap : String → String) (supplier_account : σ) (biz_cc_id : Int)
    (receiver_group : ReceiverGroup) (more_receiver : String)
    (hgrp : receiver_group.isFalsy = true) :
    get_notify_receivers search_business roleMap supplier_account biz_cc_id
        receiver_group more_receiver
        = Except.ok (NotifyResult.mk true "success"
            (some (String.intercalate "," ((pySplit more_receiver ',').map pyStrip))))
      ∧ get_notify_receivers search_business roleMap supplier_account biz_cc_id
          (ReceiverGroup.ofList []) "b, a ,b"
        = Except.ok (NotifyResult.mk true "success" (some "b,a,b"))
      ∧ String.intercalate "," (pySortedSet ((pySplit "b, a ,b" ',').map pyStrip)) = "a,b"
      ∧ ("b,a,b" : String) ≠ "a,b" := by
  refine ⟨?_, ?_, by decide, by decide⟩
  · unfold get_notify_receivers
    rw [hgrp]
    rfl
  · have h2 : String.intercalate "," ((pySplit "b, a ,b" ',').map pyStrip) = "b,a,b" := by
      decide
    have h3 : get_notify_receivers search_business roleMap supplier_account biz_cc_id
        (ReceiverGroup.ofList []) "b, a ,b"
        = Except.ok (NotifyResult.mk true "success"
            (some (String.intercalate "," ((pySplit "b, a ,b" ',').map pyStrip)))) := by
      unfold get_notify_receivers
      rfl
    rw [h3, h2]

/-- Concrete check of C9 at an empty group list. -/
theorem spec_c9_empty_group_witness :
    get_notify_receivers c7Search c7RoleMap () 1 (ReceiverGroup.ofList []) "x, y"
        = Except.ok (NotifyResult.mk true "success"
            (some (String.intercalate "," ((pySplit "x, y" ',').map pyStrip))))
      ∧ get_notify_receivers c7Search c7RoleMap () 1 (ReceiverGroup.ofList []) "b, a ,b"
        = Except.ok (NotifyResult.mk true "success" (some "b,a,b"))
      ∧ String.intercalate "," (pySortedSet ((pySplit "b, a ,b" ',').map pyStrip)) = "a,b"
      ∧ ("b,a,b" : String) ≠ "a,b" :=
  spec_c9_empty_group c7Search c7RoleMap () 1 (ReceiverGroup.ofList []) "x, y" rfl

/-- C10: in both host functions an empty `ip_list` behaves exactly like
`None`: no `host_property_filter` is added, the built kwargs are identical,
and the aggregation over the business is the same; the filter is present
exactly when `ip_list` is truthy. -/
theorem spec_c10_empty_ip_list {RT R H α : Type}
    (funcT : Page → HostKwargs → Except PyErr RT) (truthyT : RT → Bool)
    (resultFlagT : RT → Except PyErr Bool)
    (gdT : RT → Except PyErr (List (HostTopo H))) (gcT : RT → Except PyErr Nat)
    (func : Page → HostKwargs → Except PyErr R) (truthy : R → Bool)
    (resultFlag : R → Except PyErr Bool) (gd : R → Except PyErr (List α))
    (gc : R → Except PyErr Nat)
    (bk_biz_id supplier_account : Int) (host_fields : Option (List String)) :
    buildHostTopoKwargs bk_biz_id supplier_account host_fields (some [])
        = buildHostTopoKwargs bk_biz_id supplier_account host_fields none
      ∧ (buildHostTopoKwargs bk_biz_id supplier_account host_fields
          (some [])).host_property_filter = none
      ∧ buildHostKwargs bk_biz_id supplier_account host_fields (some [])
        = buildHostKwargs bk_biz_id supplier_account host_fields none
      ∧ (buildHostKwargs bk_biz_id supplier_account host_fields
          (some [])).host_property_filter = none
      ∧ (∀ ip_list, (buildHostKwargs bk_biz_id supplier_account host_fields
            ip_list).host_property_filter
          = if pyTruthyList ip_list
              then some (hostPropertyFilterFor (ip_list.getD [])) else none)
      ∧ get_business_host_topo funcT truthyT resultFlagT gdT gcT bk_biz_id
          supplier_account host_fields (some [])
        = get_business_host_topo funcT truthyT resultFlagT gdT gcT bk_biz_id
            supplier_account host_fields none
      ∧ get_business_host func truthy resultFlag gd gc bk_biz_id supplier_account
          host_fields (some [])
        = get_business_host func truthy resultFlag gd gc bk_biz_id supplier_account
            host_fields none := by
  refine ⟨rfl, rfl, rfl, rfl, ?_, rfl, rfl⟩
  intro ip
  unfold buildHostKwargs
  cases hip : pyTruthyList ip
  · simp
  · simp
